import Mathlib

/-!
Verification of the Sherlock serverless fraud-detection engine.

The development shallowly embeds the two evaluation paths of the repository:

* `Champion` models `champion_function.py`: the per-user velocity and
  idempotency record kept in DynamoDB, the conditional update that guards
  against replays, the device-to-user graph used for fraud-ring detection,
  the risk scorer with its heuristic fallback, the reason accumulation and
  the final decision, including the unconditional finalize write.
* `Shadow` models `shadow_function.py`: batch processing of
  shadow-evaluation messages and the conflict summary.

Conventions of the embedding:

* DynamoDB is modelled per user: the handler receives the record stored
  under the payload user_id (`Option UserRecord`, `none` when the user has
  no record yet) and returns the record it leaves behind.  The conditional
  `update_item` of the source either fails its condition (modelled as
  `none`, the ConditionalCheckFailedException branch) or returns the ALL_NEW
  attribute map, which is exactly the updated record.
* The device graph table is a list of `(device_id, user_id)` edges.
  `put_item` overwrites an existing `(device_id, user_id)` key, so inserting
  an existing edge leaves the list unchanged; the `timestamp` and `ttl`
  attributes are never read by the code and are omitted.
* Money and risk scores are rationals.  Python `round(x, 2)` is embedded as
  `round2`; the half-even tie-break of Python differs from the half-up
  `round` of Mathlib only on exact ties, which no claim exercises.
* The model backend (an XGBoost binary living outside the repository) is an
  oracle parameter `modelPrediction : Option ℚ`: `none` covers both the
  model-not-loaded branch and the branch where inference raises, `some p`
  is the raw prediction of the model path.
* The finalize `update_item` after scoring is the only store call of the
  handler that is not wrapped in its own try/except; its failure is an
  oracle parameter `finalizeError : Option String` (`some msg` meaning the
  call raised an exception with message `msg`, which the outer handler
  turns into a 500 ERROR response).
* Authentication (401) and payload validation (400) happen before the
  pipeline and are outside every claim; the embedding starts from a
  validated payload.  The audit-trail and shadow-dispatch calls are wrapped
  in try/except, never affect the response or the store, and are omitted.
-/

namespace Champion

/-- Validated transaction request payload (TransactionPayload, lines 24-37
of champion_function.py).  The amount is positive by validation, `location`
defaults to "unknown" and `device_id` may be absent. -/
structure TransactionPayload where
  transaction_id : String
  user_id : String
  amount : ℚ
  merchant : String
  location : String
  device_id : Option String
deriving DecidableEq

/-- Per-user row of the DynamoDB velocity/idempotency table.  Fields not
yet written are `none` (attribute_not_exists). -/
structure UserRecord where
  velocity_counter : ℕ
  last_location : Option String
  last_transaction_id : Option String
  last_decision : Option String
  last_risk_score : Option ℚ
  ttl_window : ℕ
deriving DecidableEq

/-- Python round(x, 2): round to two decimal places.  Ties round half-up
here while Python rounds half-even; no claim evaluates at a tie. -/
def round2 (x : ℚ) : ℚ := (round (100 * x) : ℤ) / 100

/-- The atomic conditional update of lines 281-295: condition
attribute_not_exists(last_transaction_id) OR last_transaction_id <> tx;
update ADD velocity_counter 1, SET last_location, ttl_window,
last_transaction_id, last_decision = PROCESSING.  Returns `none` when the
condition fails (ConditionalCheckFailedException) and otherwise the ALL_NEW
attribute map, that is the record after the update. -/
def update_velocity (rec : Option UserRecord) (tx loc : String) (now : ℕ) :
    Option UserRecord :=
  if rec.bind UserRecord.last_transaction_id = some tx then
    none
  else
    match rec with
    | none => some ⟨1, some loc, some tx, some "PROCESSING", none, now + 60⟩
    | some r =>
        some { r with
          velocity_counter := r.velocity_counter + 1
          last_location := some loc
          last_transaction_id := some tx
          last_decision := some "PROCESSING"
          ttl_window := now + 60 }

/-- Line 300: last_location is read back from the ALL_NEW attribute map,
with the payload location as default when the attribute is missing. -/
def extract_last_location (newRec : UserRecord) (payloadLoc : String) : String :=
  (newRec.last_location).getD payloadLoc

/-- Line 340: impossible_travel = (last_location != payload.location and
velocity_counter > 1), where last_location is the ALL_NEW read-back. -/
def impossible_travel_flag (newRec : UserRecord) (payloadLoc : String) : Bool :=
  decide (extract_last_location newRec payloadLoc ≠ payloadLoc) &&
    decide (1 < newRec.velocity_counter)

/-- The device graph table: one row per (device_id, user_id) key. -/
abbrev DeviceGraph := List (String × String)

/-- Lines 195-214: put_item of the edge (device_id, user_id).  put_item
overwrites the row with the same key, so re-inserting an edge is a no-op
for every later count query. -/
def record_device_usage (g : DeviceGraph) (device_id user_id : String) :
    DeviceGraph :=
  if (device_id, user_id) ∈ g then g else g ++ [(device_id, user_id)]

/-- The Select COUNT query of lines 176-183: number of rows under the
device_id partition, one per user that used the device. -/
def distinct_user_count (g : DeviceGraph) (device_id : String) : ℕ :=
  (g.filter (fun e => e.1 = device_id)).length

/-- Lines 166-193: the ring heuristic.  Returns (is_fraud_ring, count)
with is_fraud_ring set exactly when more than 3 users share the device. -/
def check_fraud_ring (g : DeviceGraph) (device_id : String) : Bool × ℕ :=
  let count := distinct_user_count g device_id
  if 3 < count then (true, count) else (false, count)

/-- Lines 342-351: when the payload carries a device_id the edge is written
first and the ring check runs on the updated graph; without a device_id the
graph is untouched and the flags stay (false, 0). -/
def graph_step (g : DeviceGraph) (device_id : Option String) (user_id : String) :
    DeviceGraph × Bool × ℕ :=
  match device_id with
  | none => (g, false, 0)
  | some did =>
      let g2 := record_device_usage g did user_id
      let rc := check_fraud_ring g2 did
      (g2, rc.1, rc.2)

/-- Lines 358-382: the scoring step.  `some p` is the model path (raw
prediction scaled by 100); `none` covers the model-not-loaded branch and
the caught inference exception, both of which fall back to the heuristic
50 + 5 * velocity_counter + 20 * impossible_travel.  The step is total: no
exception escapes it. -/
def ai_inference (modelPrediction : Option ℚ) (velocity_counter : ℕ)
    (impossible_travel : Bool) : ℚ :=
  match modelPrediction with
  | some p => p * 100
  | none =>
      50 + 5 * velocity_counter + (if impossible_travel then 20 else 0)

/-- Lines 388-396: reasons are accumulated in order, never short-circuited. -/
def build_reasons (high_velocity impossible_travel : Bool) (risk_score : ℚ)
    (is_fraud_ring : Bool) (linked_users : ℕ) : List String :=
  (if high_velocity then ["HIGH_VELOCITY"] else []) ++
    (if impossible_travel then ["IMPOSSIBLE_TRAVEL"] else []) ++
      (if 80 < risk_score then ["HIGH_RISK_SCORE"] else []) ++
        (if is_fraud_ring then
          ["FRAUD_RING_DETECTED_USERS_" ++ toString linked_users] else [])

/-- Line 399: decision = BLOCK if reasons else ALLOW. -/
def make_decision (reasons : List String) : String :=
  if reasons.isEmpty then "ALLOW" else "BLOCK"

/-- The body returned to the caller: a 200 decision body (normal or replay)
or the 500 body built by the outer exception handler (lines 490-505). -/
inductive Response where
  | decided (status : String) (risk_score : ℚ) (reasons : List String)
      (velocity_counter : ℕ) (idempotent : Bool) : Response
  | error (message : String) : Response
deriving DecidableEq

/-- Caller-visible response together with the store state left behind:
the record under the payload user_id and the device graph. -/
structure HandlerOutcome where
  response : Response
  record : Option UserRecord
  graph : DeviceGraph
deriving DecidableEq

/-- Lines 220-505: the champion handler after validation.  `rec` is the
stored record of the payload user, `graph` the device graph,
`modelPrediction` the model oracle and `finalizeError` the outcome of the
unconditional finalize write (lines 405-414); when the finalize call raises
the exception reaches the outer handler which returns the 500 body. -/
def lambda_handler (rec : Option UserRecord) (graph : DeviceGraph)
    (payload : TransactionPayload) (now : ℕ) (modelPrediction : Option ℚ)
    (finalizeError : Option String) : HandlerOutcome :=
  match update_velocity rec payload.transaction_id payload.location now with
  | none =>
      { response := Response.decided
          ((rec.bind UserRecord.last_decision).getD "UNKNOWN")
          ((rec.bind UserRecord.last_risk_score).getD 0)
          ["IDEMPOTENT_REPLAY"] 0 true
        record := rec
        graph := graph }
  | some newRec =>
      let velocity_counter := newRec.velocity_counter
      let high_velocity := decide (5 < velocity_counter)
      let impossible_travel := impossible_travel_flag newRec payload.location
      let gs := graph_step graph payload.device_id payload.user_id
      let risk_score := ai_inference modelPrediction velocity_counter impossible_travel
      let reasons := build_reasons high_velocity impossible_travel risk_score gs.2.1 gs.2.2
      let decision := make_decision reasons
      match finalizeError with
      | some msg =>
          { response := Response.error msg
            record := some newRec
            graph := gs.1 }
      | none =>
          { response := Response.decided decision (round2 risk_score) reasons
              velocity_counter false
            record := some { newRec with
              last_decision := some decision
              last_risk_score := some (round2 risk_score) }
            graph := gs.1 }

/-- A minimal payload for a user u1 shopping at a fixed merchant, used by
the sequential-submission scenarios. -/
def mkTx (tx loc : String) : TransactionPayload :=
  ⟨tx, "u1", 50, "shop", loc, none⟩

/-- Sequential submissions of a list of transaction ids for user u1 from a
fixed location, model backend off, finalize succeeding, no device: each
call starts from the record the previous call left behind. -/
def run_sequential (rec : Option UserRecord) (loc : String) :
    List String → List Response
  | [] => []
  | tx :: rest =>
      let o := lambda_handler rec [] (mkTx tx loc) 0 none none
      o.response :: run_sequential o.record loc rest

/-- Stored record of a user who already has 10 accepted transactions. -/
def ten_tx_record : UserRecord :=
  ⟨10, some "London", some "t0", some "ALLOW", some 20, 60⟩

/-- Stored record of a user whose last transaction t9 was decided BLOCK
with risk score 87. -/
def decided_record : UserRecord :=
  ⟨4, some "London", some "t9", some "BLOCK", some 87, 60⟩

/-- Replay of transaction t9 by the user of `decided_record`. -/
def replay_payload : TransactionPayload :=
  ⟨"t9", "u1", 25, "shop", "Paris", none⟩

/-- Stored record of a user whose transaction t1 was counted but whose
finalize write never completed: the decision is still the placeholder. -/
def processing_record : UserRecord :=
  ⟨1, some "London", some "t1", some "PROCESSING", none, 60⟩

/-- Stored record created outside the pipeline, lacking last_decision and
last_risk_score entirely. -/
def bare_record : UserRecord :=
  ⟨2, some "London", some "t1", none, none, 60⟩

/-- Device graph in which device d1 was already used by users u1, u2, u3. -/
def three_user_graph : DeviceGraph :=
  [("d1", "u1"), ("d1", "u2"), ("d1", "u3")]

/-- Transaction of a fourth distinct user on device d1. -/
def fourth_user_payload : TransactionPayload :=
  ⟨"t4", "u4", 50, "shop", "London", some "d1"⟩

end Champion

namespace Shadow

/-- One shadow-evaluation message after JSON parsing, together with the
draw of the simulated challenger model: champion_decision and
champion_risk_score come from the queue message, shadow_risk_score models
the random.uniform(0, 100) draw of line 43. -/
structure ShadowMessage where
  champion_decision : String
  champion_risk_score : ℚ
  shadow_risk_score : ℚ
deriving DecidableEq

/-- Line 44: shadow_decision = BLOCK if shadow_risk_score > 75 else ALLOW. -/
def shadow_decision (shadow_risk_score : ℚ) : String :=
  if 75 < shadow_risk_score then "BLOCK" else "ALLOW"

/-- Line 50: a message is a conflict exactly when the champion decision
string differs from the shadow decision string; risk scores are not
compared. -/
def is_conflict (m : ShadowMessage) : Bool :=
  decide (m.champion_decision ≠ shadow_decision m.shadow_risk_score)

/-- The summary body returned by the shadow handler (lines 72-79). -/
structure ShadowSummary where
  processed : ℕ
  conflicts : ℕ
  agreement_rate : ℚ
deriving DecidableEq

/-- Lines 17-79: the shadow handler over a batch.  Each list entry is one
SQS record after parsing; `none` models a record whose processing raised
(the except branch of lines 58-61), which is counted as processed but
never as a conflict.  agreement_rate is a percentage:
(processed - conflicts) / processed * 100, rounded to two decimals, and 0
for an empty batch. -/
def lambda_handler (records : List (Option ShadowMessage)) : ShadowSummary :=
  let conflicts_detected :=
    (records.filter fun m =>
      match m with
      | some msg => is_conflict msg
      | none => false).length
  let total_processed := records.length
  let agreement_rate :=
    if 0 < total_processed then
      Champion.round2
        ((((total_processed : ℚ) - (conflicts_detected : ℚ)) /
          (total_processed : ℚ)) * 100)
    else 0
  ⟨total_processed, conflicts_detected, agreement_rate⟩

/-- A message on which champion (ALLOW) and shadow (risk 80, hence BLOCK)
disagree. -/
def conflict_msg : ShadowMessage := ⟨"ALLOW", 33, 80⟩

/-- A message on which champion (ALLOW) and shadow (risk 10, hence ALLOW)
agree. -/
def agree_msg : ShadowMessage := ⟨"ALLOW", 33, 10⟩

end Shadow

/-! Helper lemmas about the embedded operations. -/

namespace Champion

lemma round2_natCast (n : ℕ) : round2 (n : ℚ) = n := by
  unfold round2
  have h : (100 : ℚ) * n = ((100 * n : ℕ) : ℚ) := by push_cast; ring
  rw [h, round_natCast]
  push_cast
  ring

lemma round2_nat (n : ℕ) (x : ℚ) (h : x = (n : ℚ)) : round2 x = x := by
  rw [h, round2_natCast]

lemma round2_heuristic (vc : ℕ) (it : Bool) :
    round2 (50 + 5 * (vc : ℚ) + (if it then 20 else 0)) =
      50 + 5 * (vc : ℚ) + (if it then 20 else 0) := by
  cases it
  · simp only [Bool.false_eq_true, if_false, add_zero]
    exact round2_nat (50 + 5 * vc) _ (by push_cast; ring)
  · simp only [if_true]
    exact round2_nat (50 + 5 * vc + 20) _ (by push_cast; ring)

lemma update_velocity_replay (r : UserRecord) (tx loc : String) (now : ℕ)
    (h : r.last_transaction_id = some tx) :
    update_velocity (some r) tx loc now = none := by
  unfold update_velocity
  rw [if_pos (by simpa using h)]

lemma update_velocity_fresh (r : UserRecord) (tx loc : String) (now : ℕ)
    (h : r.last_transaction_id ≠ some tx) :
    update_velocity (some r) tx loc now =
      some ⟨r.velocity_counter + 1, some loc, some tx, some "PROCESSING",
        r.last_risk_score, now + 60⟩ := by
  unfold update_velocity
  rw [if_neg (by simpa using h)]

lemma update_velocity_none (tx loc : String) (now : ℕ) :
    update_velocity none tx loc now =
      some ⟨1, some loc, some tx, some "PROCESSING", none, now + 60⟩ := rfl

lemma update_velocity_eq_some (rec : Option UserRecord) (tx loc : String)
    (now : ℕ) (newRec : UserRecord)
    (h : update_velocity rec tx loc now = some newRec) :
    rec.bind UserRecord.last_transaction_id ≠ some tx ∧
    newRec = ⟨(rec.elim 0 UserRecord.velocity_counter) + 1,
      some loc, some tx, some "PROCESSING",
      rec.bind UserRecord.last_risk_score, now + 60⟩ := by
  unfold update_velocity at h
  by_cases hc : rec.bind UserRecord.last_transaction_id = some tx
  · rw [if_pos hc] at h
    exact absurd h (by simp)
  · rw [if_neg hc] at h
    refine ⟨hc, ?_⟩
    cases rec with
    | none => simpa using h.symm
    | some r => simpa using h.symm

lemma impossible_travel_flag_of_update (rec : Option UserRecord)
    (tx loc : String) (now : ℕ) (newRec : UserRecord)
    (h : update_velocity rec tx loc now = some newRec) :
    impossible_travel_flag newRec loc = false := by
  obtain ⟨-, rfl⟩ := update_velocity_eq_some rec tx loc now newRec h
  unfold impossible_travel_flag extract_last_location
  simp

lemma lambda_handler_replay (r : UserRecord) (g : DeviceGraph)
    (p : TransactionPayload) (now : ℕ) (mp : Option ℚ) (fe : Option String)
    (h : r.last_transaction_id = some p.transaction_id) :
    lambda_handler (some r) g p now mp fe =
      { response := Response.decided (r.last_decision.getD "UNKNOWN")
          (r.last_risk_score.getD 0) ["IDEMPOTENT_REPLAY"] 0 true
        record := some r
        graph := g } := by
  unfold lambda_handler
  rw [update_velocity_replay r p.transaction_id p.location now h]
  rfl

lemma lambda_handler_ok (rec : Option UserRecord) (g : DeviceGraph)
    (p : TransactionPayload) (now : ℕ) (mp : Option ℚ) (newRec : UserRecord)
    (h : update_velocity rec p.transaction_id p.location now = some newRec) :
    lambda_handler rec g p now mp none =
      { response := Response.decided
          (make_decision (build_reasons (decide (5 < newRec.velocity_counter))
            (impossible_travel_flag newRec p.location)
            (ai_inference mp newRec.velocity_counter
              (impossible_travel_flag newRec p.location))
            (graph_step g p.device_id p.user_id).2.1
            (graph_step g p.device_id p.user_id).2.2))
          (round2 (ai_inference mp newRec.velocity_counter
            (impossible_travel_flag newRec p.location)))
          (build_reasons (decide (5 < newRec.velocity_counter))
            (impossible_travel_flag newRec p.location)
            (ai_inference mp newRec.velocity_counter
              (impossible_travel_flag newRec p.location))
            (graph_step g p.device_id p.user_id).2.1
            (graph_step g p.device_id p.user_id).2.2)
          newRec.velocity_counter false
        record := some { newRec with
          last_decision := some (make_decision
            (build_reasons (decide (5 < newRec.velocity_counter))
              (impossible_travel_flag newRec p.location)
              (ai_inference mp newRec.velocity_counter
                (impossible_travel_flag newRec p.location))
              (graph_step g p.device_id p.user_id).2.1
              (graph_step g p.device_id p.user_id).2.2))
          last_risk_score := some (round2 (ai_inference mp newRec.velocity_counter
            (impossible_travel_flag newRec p.location))) }
        graph := (graph_step g p.device_id p.user_id).1 } := by
  unfold lambda_handler
  rw [h]

lemma lambda_handler_finalize_fail (rec : Option UserRecord) (g : DeviceGraph)
    (p : TransactionPayload) (now : ℕ) (mp : Option ℚ) (msg : String)
    (newRec : UserRecord)
    (h : update_velocity rec p.transaction_id p.location now = some newRec) :
    lambda_handler rec g p now mp (some msg) =
      { response := Response.error msg
        record := some newRec
        graph := (graph_step g p.device_id p.user_id).1 } := by
  unfold lambda_handler
  rw [h]

end Champion

namespace Champion

lemma mem_build_reasons (hv it ring : Bool) (rs : ℚ) (lu : ℕ) (s : String) :
    s ∈ build_reasons hv it rs ring lu ↔
      (hv = true ∧ s = "HIGH_VELOCITY") ∨
      (it = true ∧ s = "IMPOSSIBLE_TRAVEL") ∨
      (80 < rs ∧ s = "HIGH_RISK_SCORE") ∨
      (ring = true ∧ s = "FRAUD_RING_DETECTED_USERS_" ++ toString lu) := by
  unfold build_reasons
  by_cases h : 80 < rs <;>
    rcases hv <;> rcases it <;> rcases ring <;>
      simp [h, List.mem_append]

lemma ring_tag_length_ge (lu : ℕ) :
    26 ≤ ("FRAUD_RING_DETECTED_USERS_" ++ toString lu).length := by
  rw [String.length_append]
  have h : ("FRAUD_RING_DETECTED_USERS_" : String).length = 26 := by decide
  omega

lemma ring_tag_ne_of_short (lu : ℕ) (s : String) (hs : s.length < 26) :
    "FRAUD_RING_DETECTED_USERS_" ++ toString lu ≠ s := by
  intro h
  have h2 := congrArg String.length h
  have h3 := ring_tag_length_ge lu
  omega

lemma hv_mem_build_reasons (hv it ring : Bool) (rs : ℚ) (lu : ℕ) :
    "HIGH_VELOCITY" ∈ build_reasons hv it rs ring lu ↔ hv = true := by
  rw [mem_build_reasons]
  constructor
  · rintro (⟨h, -⟩ | ⟨-, h⟩ | ⟨-, h⟩ | ⟨-, h⟩)
    · exact h
    · exact absurd h (by decide)
    · exact absurd h (by decide)
    · exact absurd h.symm (ring_tag_ne_of_short lu _ (by decide))
  · intro h
    exact Or.inl ⟨h, rfl⟩

lemma it_mem_build_reasons (hv it ring : Bool) (rs : ℚ) (lu : ℕ) :
    "IMPOSSIBLE_TRAVEL" ∈ build_reasons hv it rs ring lu ↔ it = true := by
  rw [mem_build_reasons]
  constructor
  · rintro (⟨-, h⟩ | ⟨h, -⟩ | ⟨-, h⟩ | ⟨-, h⟩)
    · exact absurd h (by decide)
    · exact h
    · exact absurd h (by decide)
    · exact absurd h.symm (ring_tag_ne_of_short lu _ (by decide))
  · intro h
    exact Or.inr (Or.inl ⟨h, rfl⟩)

lemma hrs_mem_build_reasons (hv it ring : Bool) (rs : ℚ) (lu : ℕ) :
    "HIGH_RISK_SCORE" ∈ build_reasons hv it rs ring lu ↔ 80 < rs := by
  rw [mem_build_reasons]
  constructor
  · rintro (⟨-, h⟩ | ⟨-, h⟩ | ⟨h, -⟩ | ⟨-, h⟩)
    · exact absurd h (by decide)
    · exact absurd h (by decide)
    · exact h
    · exact absurd h.symm (ring_tag_ne_of_short lu _ (by decide))
  · intro h
    exact Or.inr (Or.inr (Or.inl ⟨h, rfl⟩))

lemma ring_mem_build_reasons (hv it ring : Bool) (rs : ℚ) (lu : ℕ) :
    ("FRAUD_RING_DETECTED_USERS_" ++ toString lu) ∈ build_reasons hv it rs ring lu ↔
      ring = true := by
  rw [mem_build_reasons]
  constructor
  · rintro (⟨-, h⟩ | ⟨-, h⟩ | ⟨-, h⟩ | ⟨h, -⟩)
    · exact absurd h (ring_tag_ne_of_short lu _ (by decide))
    · exact absurd h (ring_tag_ne_of_short lu _ (by decide))
    · exact absurd h (ring_tag_ne_of_short lu _ (by decide))
    · exact h
  · intro h
    exact Or.inr (Or.inr (Or.inr ⟨h, rfl⟩))

lemma make_decision_eq_block (l : List String) :
    make_decision l = "BLOCK" ↔ l ≠ [] := by
  unfold make_decision
  cases l <;> simp

lemma make_decision_eq_allow (l : List String) :
    make_decision l = "ALLOW" ↔ l = [] := by
  unfold make_decision
  cases l <;> simp

lemma check_fraud_ring_eq (g : DeviceGraph) (did : String) :
    check_fraud_ring g did =
      (decide (3 < distinct_user_count g did), distinct_user_count g did) := by
  unfold check_fraud_ring
  by_cases h : 3 < distinct_user_count g did <;> simp [h]

end Champion

namespace Champion

lemma graph_step_none (g : DeviceGraph) (uid : String) :
    graph_step g none uid = (g, false, 0) := rfl

lemma graph_step_some (g : DeviceGraph) (did uid : String) :
    graph_step g (some did) uid =
      (record_device_usage g did uid,
        decide (3 < distinct_user_count (record_device_usage g did uid) did),
        distinct_user_count (record_device_usage g did uid) did) := by
  unfold graph_step
  simp only [check_fraud_ring_eq]

lemma ai_inference_none (vc : ℕ) (it : Bool) :
    ai_inference none vc it =
      50 + 5 * (vc : ℚ) + (if it then 20 else 0) := rfl

lemma make_decision_nil : make_decision [] = "ALLOW" := rfl

lemma lambda_handler_simple_allow (rec : Option UserRecord)
    (p : TransactionPayload) (newRec : UserRecord)
    (h : update_velocity rec p.transaction_id p.location 0 = some newRec)
    (hdev : p.device_id = none)
    (hvc : newRec.velocity_counter ≤ 5)
    (rs : ℚ) (hrs : (50 : ℚ) + 5 * newRec.velocity_counter = rs)
    (hlt : ¬ 80 < rs) (hr2 : round2 rs = rs) :
    lambda_handler rec [] p 0 none none =
      { response := Response.decided "ALLOW" rs [] newRec.velocity_counter false
        record := some { newRec with
          last_decision := some "ALLOW"
          last_risk_score := some rs }
        graph := [] } := by
  have hit := impossible_travel_flag_of_update rec p.transaction_id p.location 0 newRec h
  have hai : ai_inference none newRec.velocity_counter false = rs := by
    rw [ai_inference_none]
    simpa using hrs
  have h5 : decide (5 < newRec.velocity_counter) = false := by
    simpa using Nat.not_lt.mpr hvc
  have hb : build_reasons (decide (5 < newRec.velocity_counter)) false
      (ai_inference none newRec.velocity_counter false) false 0 = [] := by
    rw [h5, hai]
    unfold build_reasons
    simp [hlt]
  rw [lambda_handler_ok rec [] p 0 none newRec h, hit, hdev, graph_step_none]
  rw [show ((([] : DeviceGraph), false, 0).2.1) = false from rfl,
    show ((([] : DeviceGraph), false, 0).2.2) = 0 from rfl,
    show ((([] : DeviceGraph), false, 0).1) = ([] : DeviceGraph) from rfl]
  rw [hb, make_decision_nil, hai, hr2]

end Champion

/-! Claim theorems. -/

/-- C1 (code bug): the conditional update returns the ALL_NEW attribute
map, so the last_location read back on line 300 is the location the update
itself just wrote, never the pre-image.  At the failing input (user u1
submits t1 from London, then the distinct transaction t2 from Paris) the
second response has velocity_counter 2, an empty reasons list (no
IMPOSSIBLE_TRAVEL) and risk 60 (no +20 travel term), and the location read
back next to the new counter is Paris, not the pre-image London. -/
theorem impossible_travel_dead_code :
    (Champion.lambda_handler
        (Champion.lambda_handler none [] (Champion.mkTx "t1" "London") 0
          none none).record
        [] (Champion.mkTx "t2" "Paris") 0 none none).response =
      Champion.Response.decided "ALLOW" 60 [] 2 false ∧
    (Champion.update_velocity
        (Champion.lambda_handler none [] (Champion.mkTx "t1" "London") 0
          none none).record
        "t2" "Paris" 0).map Champion.UserRecord.last_location =
      some (some "Paris") := by
  have h1 : Champion.lambda_handler none [] (Champion.mkTx "t1" "London") 0
      none none =
      { response := Champion.Response.decided "ALLOW" 55 [] 1 false
        record := some ⟨1, some "London", some "t1", some "ALLOW", some 55, 60⟩
        graph := [] } := by
    have h := Champion.lambda_handler_simple_allow none
      (Champion.mkTx "t1" "London")
      ⟨1, some "London", some "t1", some "PROCESSING", none, 60⟩ rfl rfl
      (by norm_num) 55 (by norm_num) (by norm_num)
      (Champion.round2_nat 55 _ (by norm_num))
    exact h
  have h2 : Champion.update_velocity
      (some (⟨1, some "London", some "t1", some "ALLOW", some 55, 60⟩ :
        Champion.UserRecord)) "t2" "Paris" 0 =
      some ⟨2, some "Paris", some "t2", some "PROCESSING", some 55, 60⟩ := rfl
  constructor
  · rw [h1]
    dsimp only
    have h3 := Champion.lambda_handler_simple_allow
      (some ⟨1, some "London", some "t1", some "ALLOW", some 55, 60⟩)
      (Champion.mkTx "t2" "Paris")
      ⟨2, some "Paris", some "t2", some "PROCESSING", some 55, 60⟩ h2 rfl
      (by norm_num) 60 (by norm_num) (by norm_num)
      (Champion.round2_nat 60 _ (by norm_num))
    rw [h3]
  · rw [h1]
    dsimp only
    rw [h2]
    rfl

/-- C2: a request whose transaction_id equals the stored
last_transaction_id is rejected by the conditional write; the response
echoes the stored last_decision and last_risk_score verbatim, reports
velocity_counter 0, carries the single reason IDEMPOTENT_REPLAY, sets
idempotent to true, and both the stored record and the graph are left
unchanged. -/
theorem idempotent_replay_echoes_stored_decision
    (r : Champion.UserRecord) (g : Champion.DeviceGraph)
    (p : Champion.TransactionPayload) (now : ℕ) (mp : Option ℚ)
    (fe : Option String) (d : String) (s : ℚ)
    (htx : r.last_transaction_id = some p.transaction_id)
    (hd : r.last_decision = some d) (hs : r.last_risk_score = some s) :
    Champion.lambda_handler (some r) g p now mp fe =
      { response := Champion.Response.decided d s ["IDEMPOTENT_REPLAY"] 0 true
        record := some r
        graph := g } := by
  rw [Champion.lambda_handler_replay r g p now mp fe htx, hd, hs]
  rfl

/-- Witness for C2: the user of decided_record replays transaction t9 and
gets back BLOCK with risk 87, counter 0, reason IDEMPOTENT_REPLAY. -/
theorem idempotent_replay_echoes_stored_decision_witness :
    Champion.decided_record.last_transaction_id =
      some Champion.replay_payload.transaction_id ∧
    Champion.decided_record.last_decision = some "BLOCK" ∧
    Champion.decided_record.last_risk_score = some 87 ∧
    Champion.lambda_handler (some Champion.decided_record) []
        Champion.replay_payload 3 none none =
      { response := Champion.Response.decided "BLOCK" 87
          ["IDEMPOTENT_REPLAY"] 0 true
        record := some Champion.decided_record
        graph := [] } :=
  ⟨rfl, rfl, rfl,
    idempotent_replay_echoes_stored_decision Champion.decided_record []
      Champion.replay_payload 3 none none "BLOCK" 87 rfl rfl rfl⟩

/-- C5 counterexample: when the finalize write raises, the exception
propagates to the outer handler and the caller receives the 500 ERROR
body, not the already-computed 200 decision it receives when finalize
succeeds.  The claim that the response is unchanged is false. -/
theorem finalize_failure_changes_response :
    (Champion.lambda_handler none [] (Champion.mkTx "t1" "London") 0 none
        (some "dynamodb write failed")).response =
      Champion.Response.error "dynamodb write failed" ∧
    (Champion.lambda_handler none [] (Champion.mkTx "t1" "London") 0 none
        none).response =
      Champion.Response.decided "ALLOW" 55 [] 1 false ∧
    Champion.Response.error "dynamodb write failed" ≠
      Champion.Response.decided "ALLOW" 55 [] 1 false := by
  refine ⟨?_, ?_, by simp⟩
  · rw [Champion.lambda_handler_finalize_fail none [] (Champion.mkTx "t1" "London")
      0 none "dynamodb write failed"
      ⟨1, some "London", some "t1", some "PROCESSING", none, 60⟩ rfl]
  · have h := Champion.lambda_handler_simple_allow none
      (Champion.mkTx "t1" "London")
      ⟨1, some "London", some "t1", some "PROCESSING", none, 60⟩ rfl rfl
      (by norm_num) 55 (by norm_num) (by norm_num)
      (Champion.round2_nat 55 _ (by norm_num))
    rw [h]

/-- C5 amended: if the finalize write fails, the caller receives the 500
ERROR response carrying the exception message instead of the computed
decision, while the conditional update is not rolled back: the record left
behind is the ALL_NEW record of the velocity update, with the counter
incremented and the placeholder decision still in place. -/
theorem finalize_failure_returns_error_response
    (rec : Option Champion.UserRecord) (g : Champion.DeviceGraph)
    (p : Champion.TransactionPayload) (now : ℕ) (mp : Option ℚ)
    (msg : String) (newRec : Champion.UserRecord)
    (h : Champion.update_velocity rec p.transaction_id p.location now =
      some newRec) :
    (Champion.lambda_handler rec g p now mp (some msg)).response =
      Champion.Response.error msg ∧
    (Champion.lambda_handler rec g p now mp (some msg)).record =
      some newRec ∧
    newRec.velocity_counter =
      (rec.elim 0 Champion.UserRecord.velocity_counter) + 1 ∧
    newRec.last_decision = some "PROCESSING" := by
  obtain ⟨-, hrec⟩ :=
    Champion.update_velocity_eq_some rec p.transaction_id p.location now newRec h
  rw [Champion.lambda_handler_finalize_fail rec g p now mp msg newRec h]
  refine ⟨rfl, rfl, ?_, ?_⟩
  · rw [hrec]
  · rw [hrec]

/-- Witness for C5 amended: a fresh user, model off, finalize raising. -/
theorem finalize_failure_returns_error_response_witness :
    Champion.update_velocity none "t1" "London" 0 =
      some ⟨1, some "London", some "t1", some "PROCESSING", none, 60⟩ ∧
    ((Champion.lambda_handler none [] (Champion.mkTx "t1" "London") 0 none
        (some "boom")).response = Champion.Response.error "boom" ∧
      (Champion.lambda_handler none [] (Champion.mkTx "t1" "London") 0 none
        (some "boom")).record =
        some ⟨1, some "London", some "t1", some "PROCESSING", none, 60⟩ ∧
      (⟨1, some "London", some "t1", some "PROCESSING", none, 60⟩ :
        Champion.UserRecord).velocity_counter =
        ((none : Option Champion.UserRecord).elim 0
          Champion.UserRecord.velocity_counter) + 1 ∧
      (⟨1, some "London", some "t1", some "PROCESSING", none, 60⟩ :
        Champion.UserRecord).last_decision = some "PROCESSING") :=
  ⟨rfl, finalize_failure_returns_error_response none [] (Champion.mkTx "t1" "London")
    0 none "boom" ⟨1, some "London", some "t1", some "PROCESSING", none, 60⟩ rfl⟩

/-- C10: a replay can surface a non-decision.  If the stored record still
carries the placeholder decision PROCESSING (counted but never finalized)
the replay response has status PROCESSING and risk 0; if the record lacks
last_decision and last_risk_score entirely the replay reports UNKNOWN and
risk 0.  The third conjunct shows the placeholder state is reachable: a
fresh user whose finalize write fails is left with last_decision
PROCESSING and no last_risk_score, while the counter was incremented. -/
theorem replay_surfaces_placeholder_or_unknown
    (r : Champion.UserRecord) (g : Champion.DeviceGraph)
    (p : Champion.TransactionPayload) (now : ℕ) (mp : Option ℚ)
    (fe : Option String)
    (htx : r.last_transaction_id = some p.transaction_id) :
    (r.last_decision = some "PROCESSING" → r.last_risk_score = none →
      (Champion.lambda_handler (some r) g p now mp fe).response =
        Champion.Response.decided "PROCESSING" 0 ["IDEMPOTENT_REPLAY"] 0 true) ∧
    (r.last_decision = none → r.last_risk_score = none →
      (Champion.lambda_handler (some r) g p now mp fe).response =
        Champion.Response.decided "UNKNOWN" 0 ["IDEMPOTENT_REPLAY"] 0 true) ∧
    (∀ (p2 : Champion.TransactionPayload) (g2 : Champion.DeviceGraph)
        (msg : String),
      (Champion.lambda_handler none g2 p2 now mp (some msg)).record =
        some ⟨1, some p2.location, some p2.transaction_id, some "PROCESSING",
          none, now + 60⟩) := by
  refine ⟨?_, ?_, ?_⟩
  · intro hd hs
    rw [Champion.lambda_handler_replay r g p now mp fe htx, hd, hs]
    rfl
  · intro hd hs
    rw [Champion.lambda_handler_replay r g p now mp fe htx, hd, hs]
    rfl
  · intro p2 g2 msg
    rw [Champion.lambda_handler_finalize_fail none g2 p2 now mp msg
      ⟨1, some p2.location, some p2.transaction_id, some "PROCESSING", none,
        now + 60⟩ (Champion.update_velocity_none p2.transaction_id p2.location now)]

/-- Witness for C10: replaying t1 against processing_record yields the
placeholder PROCESSING, and against bare_record yields UNKNOWN. -/
theorem replay_surfaces_placeholder_or_unknown_witness :
    Champion.processing_record.last_transaction_id =
      some (Champion.mkTx "t1" "London").transaction_id ∧
    Champion.bare_record.last_transaction_id =
      some (Champion.mkTx "t1" "London").transaction_id ∧
    (Champion.lambda_handler (some Champion.processing_record) []
        (Champion.mkTx "t1" "London") 0 none none).response =
      Champion.Response.decided "PROCESSING" 0 ["IDEMPOTENT_REPLAY"] 0 true ∧
    (Champion.lambda_handler (some Champion.bare_record) []
        (Champion.mkTx "t1" "London") 0 none none).response =
      Champion.Response.decided "UNKNOWN" 0 ["IDEMPOTENT_REPLAY"] 0 true :=
  ⟨rfl, rfl,
    (replay_surfaces_placeholder_or_unknown Champion.processing_record []
      (Champion.mkTx "t1" "London") 0 none none rfl).1 rfl rfl,
    (replay_surfaces_placeholder_or_unknown Champion.bare_record []
      (Champion.mkTx "t1" "London") 0 none none rfl).2.1 rfl rfl⟩

/-- C6 counterexample: a user with 10 prior transactions submits a fresh
transaction with the model backend off; the response carries risk_score
105, outside the 0 to 100 range the claim asserts. -/
theorem risk_score_exceeds_100_at_velocity_11 :
    (Champion.lambda_handler (some Champion.ten_tx_record) []
        (Champion.mkTx "t1" "London") 0 none none).response =
      Champion.Response.decided "BLOCK" 105
        ["HIGH_VELOCITY", "HIGH_RISK_SCORE"] 11 false ∧
    ¬ ((105 : ℚ) ≤ 100) := by
  constructor
  · have hr : Champion.round2 105 = 105 :=
      Champion.round2_nat 105 _ (by norm_num)
    rw [Champion.lambda_handler_ok (some Champion.ten_tx_record) []
      (Champion.mkTx "t1" "London") 0 none
      ⟨11, some "London", some "t1", some "PROCESSING", some 20, 60⟩ rfl]
    have hit : Champion.impossible_travel_flag
        ⟨11, some "London", some "t1", some "PROCESSING", some 20, 60⟩
        (Champion.mkTx "t1" "London").location = false := by decide
    rw [hit]
    rw [show (Champion.mkTx "t1" "London").device_id = none from rfl,
      Champion.graph_step_none]
    dsimp only
    rw [Champion.ai_inference_none]
    norm_num [Champion.build_reasons, Champion.make_decision, hr]
  · norm_num

/-- C6 amended: the fallback risk score equals the unclipped heuristic,
which is at least 50 (hence nonnegative) but respects the upper bound 100
only while 5 * velocity_counter + 20 * impossible_travel stays at most 50;
beyond that (velocity_counter at least 11, or at least 7 with the travel
term) the response risk exceeds 100. -/
theorem fallback_risk_score_bounds (vc : ℕ) (it : Bool) :
    50 ≤ Champion.ai_inference none vc it ∧
    (Champion.ai_inference none vc it ≤ 100 ↔
      5 * (vc : ℚ) + (if it then 20 else 0) ≤ 50) := by
  rw [Champion.ai_inference_none]
  have h0 : (0 : ℚ) ≤ 5 * (vc : ℚ) := by positivity
  cases it
  · simp only [Bool.false_eq_true, if_false, add_zero]
    exact ⟨by linarith, by constructor <;> intro <;> linarith⟩
  · simp only [if_true]
    exact ⟨by linarith, by constructor <;> intro <;> linarith⟩

/-- C7: whenever the model backend is unavailable or inference raised
(modelPrediction = none), the handler still returns a 200 decision (no
exception escapes the scoring step) and its risk score is exactly
50 + 5 * velocity_counter + 20 * impossible_travel, with the travel term
being the flag computed by the handler. -/
theorem fallback_risk_score_formula
    (rec : Option Champion.UserRecord) (g : Champion.DeviceGraph)
    (p : Champion.TransactionPayload) (now : ℕ)
    (newRec : Champion.UserRecord)
    (h : Champion.update_velocity rec p.transaction_id p.location now =
      some newRec) :
    ∃ status reasons,
      (Champion.lambda_handler rec g p now none none).response =
        Champion.Response.decided status
          (50 + 5 * (newRec.velocity_counter : ℚ) +
            (if Champion.impossible_travel_flag newRec p.location then 20
              else 0))
          reasons newRec.velocity_counter false := by
  rw [Champion.lambda_handler_ok rec g p now none newRec h]
  dsimp only
  rw [Champion.ai_inference_none, Champion.round2_heuristic]
  exact ⟨_, _, rfl⟩

/-- Witness for C7: user of decided_record submits the fresh transaction
t5 with the model off. -/
theorem fallback_risk_score_formula_witness :
    Champion.update_velocity (some Champion.decided_record) "t5" "London" 0 =
      some ⟨5, some "London", some "t5", some "PROCESSING", some 87, 60⟩ ∧
    (∃ status reasons,
      (Champion.lambda_handler (some Champion.decided_record) []
          (Champion.mkTx "t5" "London") 0 none none).response =
        Champion.Response.decided status
          (50 + 5 * (((⟨5, some "London", some "t5", some "PROCESSING",
              some 87, 60⟩ : Champion.UserRecord)).velocity_counter : ℚ) +
            (if Champion.impossible_travel_flag
                ⟨5, some "London", some "t5", some "PROCESSING", some 87, 60⟩
                (Champion.mkTx "t5" "London").location then 20 else 0))
          reasons
          ((⟨5, some "London", some "t5", some "PROCESSING", some 87, 60⟩ :
            Champion.UserRecord)).velocity_counter false) :=
  ⟨rfl, fallback_risk_score_formula (some Champion.decided_record) []
    (Champion.mkTx "t5" "London") 0
    ⟨5, some "London", some "t5", some "PROCESSING", some 87, 60⟩ rfl⟩

/-- C4: for every non-replay transaction the status is BLOCK exactly when
the reasons list is nonempty (ALLOW exactly when it is empty), and the
reasons list contains each code precisely when its condition holds:
HIGH_VELOCITY for velocity_counter over 5, IMPOSSIBLE_TRAVEL for the
travel flag, HIGH_RISK_SCORE for risk over 80, and the
FRAUD_RING_DETECTED_USERS tag for the ring flag, all accumulated without
short-circuiting. -/
theorem decision_block_iff_reasons_nonempty
    (rec : Option Champion.UserRecord) (g : Champion.DeviceGraph)
    (p : Champion.TransactionPayload) (now : ℕ) (mp : Option ℚ)
    (newRec : Champion.UserRecord)
    (h : Champion.update_velocity rec p.transaction_id p.location now =
      some newRec) :
    ∃ status rs reasons,
      (Champion.lambda_handler rec g p now mp none).response =
        Champion.Response.decided status rs reasons
          newRec.velocity_counter false ∧
      (status = "BLOCK" ↔ reasons ≠ []) ∧
      (status = "ALLOW" ↔ reasons = []) ∧
      ("HIGH_VELOCITY" ∈ reasons ↔ 5 < newRec.velocity_counter) ∧
      ("IMPOSSIBLE_TRAVEL" ∈ reasons ↔
        Champion.impossible_travel_flag newRec p.location = true) ∧
      ("HIGH_RISK_SCORE" ∈ reasons ↔
        80 < Champion.ai_inference mp newRec.velocity_counter
          (Champion.impossible_travel_flag newRec p.location)) ∧
      (("FRAUD_RING_DETECTED_USERS_" ++
          toString (Champion.graph_step g p.device_id p.user_id).2.2) ∈
            reasons ↔
        (Champion.graph_step g p.device_id p.user_id).2.1 = true) := by
  rw [Champion.lambda_handler_ok rec g p now mp newRec h]
  refine ⟨_, _, _, rfl, Champion.make_decision_eq_block _,
    Champion.make_decision_eq_allow _, ?_, ?_, ?_, ?_⟩
  · rw [Champion.hv_mem_build_reasons]
    simp
  · rw [Champion.it_mem_build_reasons]
  · rw [Champion.hrs_mem_build_reasons]
  · rw [Champion.ring_mem_build_reasons]

/-- Witness for C4: a fresh user submits t1 from London. -/
theorem decision_block_iff_reasons_nonempty_witness :
    Champion.update_velocity none "t1" "London" 0 =
      some ⟨1, some "London", some "t1", some "PROCESSING", none, 60⟩ ∧
    (∃ status rs reasons,
      (Champion.lambda_handler none [] (Champion.mkTx "t1" "London") 0 none
          none).response =
        Champion.Response.decided status rs reasons
          ((⟨1, some "London", some "t1", some "PROCESSING", none, 60⟩ :
            Champion.UserRecord)).velocity_counter false ∧
      (status = "BLOCK" ↔ reasons ≠ []) ∧
      (status = "ALLOW" ↔ reasons = []) ∧
      ("HIGH_VELOCITY" ∈ reasons ↔
        5 < ((⟨1, some "London", some "t1", some "PROCESSING", none, 60⟩ :
          Champion.UserRecord)).velocity_counter) ∧
      ("IMPOSSIBLE_TRAVEL" ∈ reasons ↔
        Champion.impossible_travel_flag
          ⟨1, some "London", some "t1", some "PROCESSING", none, 60⟩
          (Champion.mkTx "t1" "London").location = true) ∧
      ("HIGH_RISK_SCORE" ∈ reasons ↔
        80 < Champion.ai_inference none
          ((⟨1, some "London", some "t1", some "PROCESSING", none, 60⟩ :
            Champion.UserRecord)).velocity_counter
          (Champion.impossible_travel_flag
            ⟨1, some "London", some "t1", some "PROCESSING", none, 60⟩
            (Champion.mkTx "t1" "London").location)) ∧
      (("FRAUD_RING_DETECTED_USERS_" ++
          toString (Champion.graph_step [] (Champion.mkTx "t1" "London").device_id
            (Champion.mkTx "t1" "London").user_id).2.2) ∈ reasons ↔
        (Champion.graph_step [] (Champion.mkTx "t1" "London").device_id
          (Champion.mkTx "t1" "London").user_id).2.1 = true)) :=
  ⟨rfl, decision_block_iff_reasons_nonempty none [] (Champion.mkTx "t1" "London")
    0 none ⟨1, some "London", some "t1", some "PROCESSING", none, 60⟩ rfl⟩

/-- C8: for a transaction carrying a device_id, the edge is written before
the ring check runs (the graph left behind is exactly the one the count was
taken on, including the edge of the current transaction), and the ring tag
with the resulting count appears in the reasons exactly when that count
exceeds 3. -/
theorem fraud_ring_checked_after_edge_insert
    (rec : Option Champion.UserRecord) (g : Champion.DeviceGraph)
    (p : Champion.TransactionPayload) (now : ℕ) (mp : Option ℚ)
    (did : String) (newRec : Champion.UserRecord)
    (hdev : p.device_id = some did)
    (h : Champion.update_velocity rec p.transaction_id p.location now =
      some newRec) :
    (Champion.lambda_handler rec g p now mp none).graph =
      Champion.record_device_usage g did p.user_id ∧
    ∃ status rs reasons,
      (Champion.lambda_handler rec g p now mp none).response =
        Champion.Response.decided status rs reasons
          newRec.velocity_counter false ∧
      (("FRAUD_RING_DETECTED_USERS_" ++
          toString (Champion.distinct_user_count
            (Champion.record_device_usage g did p.user_id) did)) ∈ reasons ↔
        3 < Champion.distinct_user_count
          (Champion.record_device_usage g did p.user_id) did) := by
  rw [Champion.lambda_handler_ok rec g p now mp newRec h, hdev,
    Champion.graph_step_some]
  dsimp only
  refine ⟨rfl, _, _, _, rfl, ?_⟩
  rw [Champion.ring_mem_build_reasons]
  simp

/-- Witness for C8: a fourth distinct user joins device d1 already used by
three users; the count on their own transaction is 4 and 4 exceeds 3. -/
theorem fraud_ring_checked_after_edge_insert_witness :
    Champion.fourth_user_payload.device_id = some "d1" ∧
    Champion.update_velocity none "t4" "London" 0 =
      some ⟨1, some "London", some "t4", some "PROCESSING", none, 60⟩ ∧
    Champion.distinct_user_count
      (Champion.record_device_usage Champion.three_user_graph "d1" "u4")
      "d1" = 4 ∧
    ((Champion.lambda_handler none Champion.three_user_graph
        Champion.fourth_user_payload 0 none none).graph =
      Champion.record_device_usage Champion.three_user_graph "d1"
        Champion.fourth_user_payload.user_id ∧
    ∃ status rs reasons,
      (Champion.lambda_handler none Champion.three_user_graph
          Champion.fourth_user_payload 0 none none).response =
        Champion.Response.decided status rs reasons
          ((⟨1, some "London", some "t4", some "PROCESSING", none, 60⟩ :
            Champion.UserRecord)).velocity_counter false ∧
      (("FRAUD_RING_DETECTED_USERS_" ++
          toString (Champion.distinct_user_count
            (Champion.record_device_usage Champion.three_user_graph "d1"
              Champion.fourth_user_payload.user_id) "d1")) ∈ reasons ↔
        3 < Champion.distinct_user_count
          (Champion.record_device_usage Champion.three_user_graph "d1"
            Champion.fourth_user_payload.user_id) "d1")) :=
  ⟨rfl, rfl, by decide,
    fraud_ring_checked_after_edge_insert none Champion.three_user_graph
      Champion.fourth_user_payload 0 none "d1"
      ⟨1, some "London", some "t4", some "PROCESSING", none, 60⟩ rfl rfl⟩

/-- C9 counterexample: a batch of two messages with one conflict.  The
handler returns agreement_rate 50 (a percentage), while
(processed - conflicts) / processed is 1/2; the rate formula of the claim
does not match the returned value. -/
theorem agreement_rate_is_percentage :
    Shadow.lambda_handler [some Shadow.conflict_msg, some Shadow.agree_msg] =
      ⟨2, 1, 50⟩ ∧
    ¬ ((((2 : ℚ) - 1) / 2) = 50) := by
  constructor
  · have hc : Shadow.is_conflict Shadow.conflict_msg = true := by
      show decide (("ALLOW" : String) ≠ Shadow.shadow_decision 80) = true
      rw [show Shadow.shadow_decision 80 = "BLOCK" from by
        unfold Shadow.shadow_decision
        rw [if_pos (by norm_num : (75 : ℚ) < 80)]]
      rfl
    have ha : Shadow.is_conflict Shadow.agree_msg = false := by
      show decide (("ALLOW" : String) ≠ Shadow.shadow_decision 10) = false
      rw [show Shadow.shadow_decision 10 = "ALLOW" from by
        unfold Shadow.shadow_decision
        rw [if_neg (by norm_num : ¬ (75 : ℚ) < 10)]]
      rfl
    have hrate : Champion.round2 ((((2 : ℚ) - 1) / 2) * 100) = 50 := by
      rw [show (((2 : ℚ) - 1) / 2) * 100 = ((50 : ℕ) : ℚ) by norm_num]
      rw [Champion.round2_natCast]
      norm_num
    have hrate2 : Champion.round2 50 = 50 :=
      Champion.round2_nat 50 _ (by norm_num)
    unfold Shadow.lambda_handler
    simp only [List.filter_cons, List.filter_nil, hc, ha]
    norm_num [hrate, hrate2]
  · norm_num

/-- C9 amended: each message is a conflict exactly when the champion
decision string differs from the shadow decision string, champion risk
scores are never consulted (changing only champion_risk_score never
changes the classification), processed is the batch size, conflicts is the
number of conflicts, and the reported agreement rate is the percentage
(processed - conflicts) / processed * 100 rounded to two decimals, with 0
for an empty batch. -/
theorem shadow_summary_spec (msgs : List Shadow.ShadowMessage) :
    Shadow.lambda_handler (msgs.map some) =
      ⟨msgs.length, (msgs.filter Shadow.is_conflict).length,
        if 0 < msgs.length then
          Champion.round2 ((((msgs.length : ℚ) -
            ((msgs.filter Shadow.is_conflict).length : ℚ)) /
              (msgs.length : ℚ)) * 100)
        else 0⟩ ∧
    (∀ (m : Shadow.ShadowMessage) (c : ℚ),
      Shadow.is_conflict ⟨m.champion_decision, c, m.shadow_risk_score⟩ =
        Shadow.is_conflict m) := by
  constructor
  · have hfil : ∀ l : List Shadow.ShadowMessage,
        (List.filter (fun m =>
          match m with
          | some msg => Shadow.is_conflict msg
          | none => false) (l.map some)) = (l.filter Shadow.is_conflict).map some := by
      intro l
      induction l with
      | nil => rfl
      | cons a t ih =>
          rcases hca : Shadow.is_conflict a <;>
            simp [List.filter_cons, hca, ih]
    unfold Shadow.lambda_handler
    rw [hfil msgs]
    simp
  · intro m c
    rcases m with ⟨d, cr, s⟩
    rfl

namespace Champion

lemma handler_step_exists (r : UserRecord) (tx loc : String)
    (h : r.last_transaction_id ≠ some tx) :
    ∃ status rs reasons,
      lambda_handler (some r) [] (mkTx tx loc) 0 none none =
        { response := Response.decided status rs reasons
            (r.velocity_counter + 1) false
          record := some ⟨r.velocity_counter + 1, some loc, some tx,
            some status, some rs, 60⟩
          graph := [] } ∧
      ("HIGH_VELOCITY" ∈ reasons ↔ 5 < r.velocity_counter + 1) := by
  have hu : update_velocity (some r) tx loc 0 =
      some ⟨r.velocity_counter + 1, some loc, some tx, some "PROCESSING",
        r.last_risk_score, 60⟩ :=
    update_velocity_fresh r tx loc 0 h
  rw [lambda_handler_ok (some r) [] (mkTx tx loc) 0 none
    ⟨r.velocity_counter + 1, some loc, some tx, some "PROCESSING",
      r.last_risk_score, 60⟩ hu]
  have hit : impossible_travel_flag
      ⟨r.velocity_counter + 1, some loc, some tx, some "PROCESSING",
        r.last_risk_score, 60⟩ (mkTx tx loc).location = false := by
    unfold impossible_travel_flag extract_last_location
    simp [mkTx]
  rw [hit]
  rw [show (mkTx tx loc).device_id = none from rfl, graph_step_none]
  dsimp only
  refine ⟨_, _, _, rfl, ?_⟩
  rw [hv_mem_build_reasons]
  simp

lemma handler_first_step (tx loc : String) :
    ∃ status rs reasons,
      lambda_handler none [] (mkTx tx loc) 0 none none =
        { response := Response.decided status rs reasons 1 false
          record := some ⟨1, some loc, some tx, some status, some rs, 60⟩
          graph := [] } ∧
      ("HIGH_VELOCITY" ∈ reasons ↔ 5 < 1) := by
  rw [lambda_handler_ok none [] (mkTx tx loc) 0 none
    ⟨1, some loc, some tx, some "PROCESSING", none, 60⟩
    (update_velocity_none tx loc 0)]
  have hit : impossible_travel_flag
      ⟨1, some loc, some tx, some "PROCESSING", none, 60⟩
      (mkTx tx loc).location = false := by
    unfold impossible_travel_flag extract_last_location
    simp [mkTx]
  rw [hit]
  rw [show (mkTx tx loc).device_id = none from rfl, graph_step_none]
  dsimp only
  refine ⟨_, _, _, rfl, ?_⟩
  rw [hv_mem_build_reasons]
  simp

lemma run_sequential_cons (rec : Option UserRecord) (loc tx : String)
    (rest : List String) :
    run_sequential rec loc (tx :: rest) =
      (lambda_handler rec [] (mkTx tx loc) 0 none none).response ::
        run_sequential
          (lambda_handler rec [] (mkTx tx loc) 0 none none).record loc rest :=
  rfl

lemma run_sequential_aux (loc : String) (txs : List String) :
    ∀ r : UserRecord, txs.Nodup →
      (∀ tx ∈ txs, r.last_transaction_id ≠ some tx) →
      ∀ i, i < txs.length →
      ∃ status rs reasons,
        (run_sequential (some r) loc txs)[i]? =
          some (Response.decided status rs reasons
            (r.velocity_counter + i + 1) false) ∧
        ("HIGH_VELOCITY" ∈ reasons ↔ 5 < r.velocity_counter + i + 1) := by
  induction txs with
  | nil =>
      intro r _ _ i hi
      exact absurd hi (by simp)
  | cons tx rest ih =>
      intro r hnd hne i hi
      obtain ⟨status, rs, reasons, heq, hmem⟩ :=
        handler_step_exists r tx loc (hne tx (List.mem_cons_self tx rest))
      rw [run_sequential_cons (some r) loc tx rest, heq]
      dsimp only
      cases i with
      | zero =>
          exact ⟨status, rs, reasons, by simp, by simpa using hmem⟩
      | succ j =>
          have hrest : ∀ t ∈ rest,
              (⟨r.velocity_counter + 1, some loc, some tx, some status,
                some rs, 60⟩ : UserRecord).last_transaction_id ≠ some t := by
            intro t ht hcontra
            have htt : tx = t := by simpa using hcontra
            subst htt
            exact (List.nodup_cons.mp hnd).1 ht
          obtain ⟨s2, r2, rsn2, h2, m2⟩ :=
            ih ⟨r.velocity_counter + 1, some loc, some tx, some status,
              some rs, 60⟩ (List.nodup_cons.mp hnd).2 hrest j
              (by simpa using hi)
          dsimp only at h2 m2
          have harith : r.velocity_counter + 1 + j + 1 =
              r.velocity_counter + (j + 1) + 1 := by omega
          rw [harith] at h2 m2
          exact ⟨s2, r2, rsn2, by simpa using h2, m2⟩

end Champion

/-- C3: for a fresh user submitting a list of pairwise distinct
transaction ids sequentially from one location, the response to the i-th
submission reports velocity_counter i + 1 (each submission increments by
exactly one), and HIGH_VELOCITY appears among its reasons exactly when
that counter exceeds 5, that is from submission six onward. -/
theorem sequential_velocity_counter_increments (txs : List String)
    (hnd : txs.Nodup) (i : ℕ) (hi : i < txs.length) :
    ∃ status rs reasons,
      (Champion.run_sequential none "London" txs)[i]? =
        some (Champion.Response.decided status rs reasons (i + 1) false) ∧
      ("HIGH_VELOCITY" ∈ reasons ↔ 5 < i + 1) := by
  cases txs with
  | nil => exact absurd hi (by simp)
  | cons tx rest =>
      obtain ⟨status, rs, reasons, heq, hmem⟩ :=
        Champion.handler_first_step tx "London"
      rw [Champion.run_sequential_cons none "London" tx rest, heq]
      dsimp only
      cases i with
      | zero =>
          exact ⟨status, rs, reasons, by simp, by simpa using hmem⟩
      | succ j =>
          have hrest : ∀ t ∈ rest,
              (⟨1, some "London", some tx, some status, some rs, 60⟩ :
                Champion.UserRecord).last_transaction_id ≠ some t := by
            intro t ht hcontra
            have htt : tx = t := by simpa using hcontra
            subst htt
            exact (List.nodup_cons.mp hnd).1 ht
          obtain ⟨s2, r2, rsn2, h2, m2⟩ :=
            Champion.run_sequential_aux "London" rest
              ⟨1, some "London", some tx, some status, some rs, 60⟩
              (List.nodup_cons.mp hnd).2 hrest j (by simpa using hi)
          dsimp only at h2 m2
          have harith : 1 + j + 1 = j + 1 + 1 := by omega
          rw [harith] at h2 m2
          exact ⟨s2, r2, rsn2, by simpa using h2, m2⟩

/-- Witness for C3: seven distinct transaction ids; the sixth submission
(index 5) reports velocity_counter 6 and 6 exceeds 5. -/
theorem sequential_velocity_counter_increments_witness :
    (["t1", "t2", "t3", "t4", "t5", "t6", "t7"] : List String).Nodup ∧
    5 < (["t1", "t2", "t3", "t4", "t5", "t6", "t7"] : List String).length ∧
    (∃ status rs reasons,
      (Champion.run_sequential none "London"
        ["t1", "t2", "t3", "t4", "t5", "t6", "t7"])[5]? =
        some (Champion.Response.decided status rs reasons 6 false) ∧
      ("HIGH_VELOCITY" ∈ reasons ↔ 5 < 6)) :=
  ⟨by decide, by decide,
    sequential_velocity_counter_increments
      ["t1", "t2", "t3", "t4", "t5", "t6", "t7"] (by decide) 5 (by decide)⟩
